import Mathlib

/-!
Verification of the device-communication core of the
homebridge-create-ceiling-fan plugin.

The definitions below are a shallow embedding of the TypeScript sources:

* `src/mutex.ts` (shipped in `settings.ts` in this snapshot): the `Mutex`
  class with a waiting queue;
* `src/platformAccessory.ts`: the `CreateCeilingFanAccessory` class, in
  particular `adjustInputRotationSpeed`, `handleFanRotationSpeedSet`
  (debounce), `getDeviceStatus` (poller), `setDeviceValue`,
  `setDeviceValueWithTimeout`, `waitForPromiseWithTimeout`,
  `throwErrorIfDeviceUnresponsive` and the characteristic projections.

Asynchronous code is modelled by explicit state passing: timed promises
become a `TResult` value carrying the settling time, and the event-driven
parts (mutex callers, poller triggers, slider input) become step functions
over explicit state, folded over event traces.
-/

set_option autoImplicit false

namespace CreateCeilingFan

/-! ### Configuration constants (fields of `CreateCeilingFanAccessory`) -/

def fanSetSpeedDebouncePeriod : Nat := 500

def getDeviceStatusFastRetryPeriod : Nat := 1000

def getDeviceStatusPeriod : Nat := 10000

def getDeviceStatusConnectTimeout : Nat := 3000

def getDeviceStatusReadTimeout : Nat := 1000

def setDeviceStatusTimeout : Nat := 2500

/-- The `fanRotationSpeedNormalized` readonly array: the slider values that
correspond to the six device fan speeds. -/
def fanRotationSpeedNormalized : List Nat := [10, 30, 50, 70, 90, 100]

/-! ### Slider quantization (`adjustInputRotationSpeed`)

The HomeKit slider is configured with `minValue 0`, `maxValue 100`,
`minStep 1`, so the input domain is the natural numbers `0..100`;
we embed the input as `Nat`. -/

/-- Embedding of `adjustInputRotationSpeed` (platformAccessory.ts, lines
622-640): snap a raw slider value to the nearest value that corresponds to
a device fan speed. -/
def adjustInputRotationSpeed (value : Nat) : Nat :=
  if value = 0 then 0
  else if value < 20 then fanRotationSpeedNormalized.getD 0 0
  else if value < 40 then fanRotationSpeedNormalized.getD 1 0
  else if value < 60 then fanRotationSpeedNormalized.getD 2 0
  else if value < 80 then fanRotationSpeedNormalized.getD 3 0
  else if value < 95 then fanRotationSpeedNormalized.getD 4 0
  else fanRotationSpeedNormalized.getD 5 0

/-- The device (DPS 62) speed computed in the debounce callback of
`handleFanRotationSpeedSet`:
`this.fanRotationSpeedNormalized.indexOf(adjustedValue) + 1`. -/
def dpsRotationSpeedFor (adjustedValue : Nat) : Nat :=
  fanRotationSpeedNormalized.indexOf adjustedValue + 1

/-! ### Input debounce controller (`handleFanRotationSpeedSet`)

State of the debounce timer plus the list of dispatched speed commands
(a ghost log of the `setDeviceValueWithTimeout(62, _)` calls made by the
debounce callback).  Time is a `Nat` of milliseconds. -/

structure DebounceState where
  /-- The pending `fanSetSpeedDebounceTimer`: its deadline and the
  `adjustedValue` captured by the timer callback (`none` = no timer). -/
  pendingTimer : Option (Nat × Nat)
  /-- Ghost log of dispatched speed commands, as `(dps, value)` pairs. -/
  dispatched : List (Nat × Nat)
deriving DecidableEq

def debounceInit : DebounceState := { pendingTimer := none, dispatched := [] }

/-- A pending debounce timer whose deadline has been reached fires: its
callback dispatches `setDeviceValueWithTimeout(62, indexOf(adjusted) + 1)`
and the timer is gone. -/
def fireDueTimer (s : DebounceState) (now : Nat) : DebounceState :=
  match s.pendingTimer with
  | some (deadline, adjustedValue) =>
    if deadline ≤ now then
      { pendingTimer := none,
        dispatched := s.dispatched ++ [(62, dpsRotationSpeedFor adjustedValue)] }
    else s
  | none => s

/-- Embedding of `handleFanRotationSpeedSet` (platformAccessory.ts, lines
322-343) as seen at time `now`: any timer already due has fired; the
handler then clears a still-pending timer and, when the adjusted value is
nonzero, snaps the slider and starts a fresh debounce timer capturing the
adjusted value.  When the adjusted value is `0` no new timer is started. -/
def handleFanRotationSpeedSet (s : DebounceState) (now value : Nat) : DebounceState :=
  let fired := fireDueTimer s now
  let adjustedValue := adjustInputRotationSpeed value
  if adjustedValue ≠ 0 then
    { fired with pendingTimer := some (now + fanSetSpeedDebouncePeriod, adjustedValue) }
  else
    { fired with pendingTimer := none }

/-- Let the remaining pending timer (if any) expire after the last input. -/
def flushDebounce (s : DebounceState) : DebounceState :=
  match s.pendingTimer with
  | some (_, adjustedValue) =>
    { pendingTimer := none,
      dispatched := s.dispatched ++ [(62, dpsRotationSpeedFor adjustedValue)] }
  | none => s

/-- Run a whole gesture: feed the timestamped inputs in order, then let the
debounce period elapse. -/
def debounceRun (inputs : List (Nat × Nat)) : DebounceState :=
  flushDebounce (inputs.foldl (fun s p => handleFanRotationSpeedSet s p.1 p.2) debounceInit)

/-- A burst: strictly increasing timestamps with consecutive gaps shorter
than the debounce period. -/
def isBurst : List (Nat × Nat) → Bool
  | [] => true
  | [_] => true
  | (t1, _) :: (t2, v2) :: rest =>
    decide (t1 < t2) && decide (t2 < t1 + fanSetSpeedDebouncePeriod)
      && isBurst ((t2, v2) :: rest)

/-! ### The `Mutex` class (settings.ts, lines 41-106)

The fields `isLocked` and `waitingQueue` mirror the class fields.  In the
source, who currently holds the mutex lives in the suspended continuations
(the resolved `lock()` promises); we track it as the ghost list `holders`
(a caller is added when its `acquireLock` continuation runs, removed when
it calls its release capability) together with the ghost `grantedLog`, the
order in which callers became holders.  Callers are identified by `Nat`
ids.  Under cooperative single-threaded scheduling a run of the system is
a trace of atomic `lock` / `unlock` events. -/

structure MutexModel where
  isLocked : Bool
  waitingQueue : List Nat
  holders : List Nat
  grantedLog : List Nat
deriving DecidableEq

inductive MutexEvent where
  | lock (caller : Nat)
  | unlock (caller : Nat)
deriving DecidableEq

def mutexInit : MutexModel :=
  { isLocked := false, waitingQueue := [], holders := [], grantedLog := [] }

/-- The `acquireLock` closure inside `Mutex.lock`: set `isLocked` and
resolve the promise, making `caller` a holder. -/
def acquireLock (s : MutexModel) (caller : Nat) : MutexModel :=
  { s with
    isLocked := true,
    holders := s.holders ++ [caller],
    grantedLog := s.grantedLog ++ [caller] }

/-- One event of the mutex system.  `lock caller`: if the mutex is already
locked the caller's `acquireLock` is pushed to the waiting queue, else it
runs immediately.  `unlock caller`: the caller invokes its release
capability (it stops being a holder); if someone is waiting, the queue is
shifted and the next pending `acquireLock` runs at once, otherwise the
mutex is marked free. -/
def mutexStep (s : MutexModel) : MutexEvent → MutexModel
  | .lock caller =>
    if s.isLocked then { s with waitingQueue := s.waitingQueue ++ [caller] }
    else acquireLock s caller
  | .unlock caller =>
    let afterRelease := { s with holders := s.holders.erase caller }
    match s.waitingQueue with
    | nextPending :: remaining =>
      acquireLock { afterRelease with waitingQueue := remaining } nextPending
    | [] => { afterRelease with isLocked := false }

def mutexRun (s : MutexModel) (events : List MutexEvent) : MutexModel :=
  events.foldl mutexStep s

/-- The callers of the `lock` events of a trace, in issue order. -/
def issuedLocks (events : List MutexEvent) : List Nat :=
  events.filterMap fun e =>
    match e with
    | .lock caller => some caller
    | .unlock _ => none

/-- Well-formed traces: a release capability is only invoked by a current
holder, and (being consumed by the call) only once — the usage contract
stated in the `Mutex` documentation. -/
def wfMutexEvents : MutexModel → List MutexEvent → Bool
  | _, [] => true
  | s, .lock caller :: es => wfMutexEvents (mutexStep s (.lock caller)) es
  | s, .unlock caller :: es =>
    decide (caller ∈ s.holders) && wfMutexEvents (mutexStep s (.unlock caller)) es

/-! ### The device state cache and the characteristic projections -/

/-- The `state` member of `CreateCeilingFanAccessory` (lines 163-169). -/
structure DeviceState where
  fanOn : Bool
  fanSpeed : Nat
  fanRotationClockwise : Bool
  lightOn : Bool
  isValid : Bool
deriving DecidableEq

/-- The initializer of the `state` member. -/
def deviceStateInit : DeviceState :=
  { fanOn := false, fanSpeed := 1, fanRotationClockwise := false,
    lightOn := false, isValid := false }

/-- The HomeKit `CharacteristicValue` union type: string, number or
boolean. -/
inductive CharacteristicValue where
  | str (s : String)
  | num (n : Nat)
  | bool (b : Bool)
deriving DecidableEq

def activeACTIVE : CharacteristicValue := .num 1

def activeINACTIVE : CharacteristicValue := .num 0

def rotationDirectionCLOCKWISE : CharacteristicValue := .num 0

def rotationDirectionCOUNTER_CLOCKWISE : CharacteristicValue := .num 1

/-- The HAP status thrown by the plugin (the only one it ever uses). -/
inductive HapStatus where
  | SERVICE_COMMUNICATION_FAILURE
deriving DecidableEq

def fanActiveValueToCharacteristicValue (s : DeviceState) : CharacteristicValue :=
  if s.fanOn then activeACTIVE else activeINACTIVE

/-- `fanRotationSpeedNormalized[this.state.fanSpeed - 1]`; device speeds are
`1..6`, so the index is in range there (out of range is modelled by the
default `0`). -/
def fanRotationSpeedValueToCharacteristicValue (s : DeviceState) : CharacteristicValue :=
  .num (fanRotationSpeedNormalized.getD (s.fanSpeed - 1) 0)

def fanRotationDirectionValueToCharacteristicValue (s : DeviceState) : CharacteristicValue :=
  if s.fanRotationClockwise then rotationDirectionCLOCKWISE
  else rotationDirectionCOUNTER_CLOCKWISE

def lightOnValueToCharacteristicValue (s : DeviceState) : CharacteristicValue :=
  .bool s.lightOn

/-- `throwErrorIfDeviceUnresponsive` (lines 529-534): throw
`SERVICE_COMMUNICATION_FAILURE` when the cached state is not valid. -/
def throwErrorIfDeviceUnresponsive (s : DeviceState) : Except HapStatus Unit :=
  if ¬ s.isValid then .error .SERVICE_COMMUNICATION_FAILURE else .ok ()

/-- Outcome of a HomeKit get handler: whether the fire-and-forget
`getDeviceStatus()` refresh was triggered, and the returned value or the
thrown HAP status. -/
structure GetOutcome where
  refreshRequested : Bool
  result : Except HapStatus CharacteristicValue

/-- Common shape of the four get handlers: trigger `getDeviceStatus()`
without awaiting it, run `throwErrorIfDeviceUnresponsive`, then return the
projection of the cache. -/
def handleGet (s : DeviceState) (projection : DeviceState → CharacteristicValue) : GetOutcome :=
  { refreshRequested := true,
    result :=
      match throwErrorIfDeviceUnresponsive s with
      | .error e => .error e
      | .ok _ => .ok (projection s) }

def handleFanActiveStateGet (s : DeviceState) : GetOutcome :=
  handleGet s fanActiveValueToCharacteristicValue

def handleFanRotationSpeedGet (s : DeviceState) : GetOutcome :=
  handleGet s fanRotationSpeedValueToCharacteristicValue

def handleFanRotationDirectionGet (s : DeviceState) : GetOutcome :=
  handleGet s fanRotationDirectionValueToCharacteristicValue

def handleLightOnGet (s : DeviceState) : GetOutcome :=
  handleGet s lightOnValueToCharacteristicValue

/-! ### Timed promises and `waitForPromiseWithTimeout` -/

/-- A promise together with its settling behaviour: it resolves with a
value, or rejects, at time `settledAt` (milliseconds from when it was
started). -/
inductive TResult (α : Type) where
  | resolved (value : α) (settledAt : Nat)
  | rejected (settledAt : Nat)
deriving DecidableEq

/-- `waitForPromiseWithTimeout` (lines 519-524): race the promise against a
timer of `ms` milliseconds; whichever settles first is surfaced, the loser
is disregarded.  The underlying promise is not cancelled. -/
def waitForPromiseWithTimeout {α : Type} (promise : TResult α) (ms : Nat) : TResult α :=
  match promise with
  | .resolved v t => if t < ms then .resolved v t else .rejected ms
  | .rejected t => if t < ms then .rejected t else .rejected ms

/-! ### The status poller (`getDeviceStatus`, lines 417-456) -/

/-- The data points of the fan read via `get({schema: true})`, restricted
to the four DPS keys the plugin uses. -/
structure DPSObject where
  dps60 : Bool
  dps62 : Nat
  dps63 : String
  dps20 : Bool
deriving DecidableEq

/-- `updateDeviceState` (lines 541-546). -/
def updateDeviceState (s : DeviceState) (status : DPSObject) : DeviceState :=
  { s with
    fanOn := status.dps60,
    fanSpeed := status.dps62,
    fanRotationClockwise := if status.dps63 = "forward" then false else true,
    lightOn := status.dps20 }

/-- The try/catch body of `getDeviceStatus`: timeout-bounded connect, then
timeout-bounded read; on success the cache is updated and marked valid, on
any failure the connection is torn down and the cache marked invalid.
Returns the new cache and the `isCommunicationError` flag. -/
def getDeviceStatusAttempt (s : DeviceState)
    (connect : TResult Unit) (read : TResult DPSObject) : DeviceState × Bool :=
  match waitForPromiseWithTimeout connect getDeviceStatusConnectTimeout with
  | .rejected _ => ({ s with isValid := false }, true)
  | .resolved _ _ =>
    match waitForPromiseWithTimeout read getDeviceStatusReadTimeout with
    | .rejected _ => ({ s with isValid := false }, true)
    | .resolved status _ => ({ updateDeviceState s status with isValid := true }, false)

structure PollResult where
  state : DeviceState
  skipped : Bool
  isCommunicationError : Bool
  nextGetStatusPeriod : Nat
deriving DecidableEq

/-- One call of `getDeviceStatus`: if no read is in progress, run the
attempt; otherwise skip.  Either way the next periodic timer is armed, with
the fast-retry period exactly when `isCommunicationError` was set. -/
def getDeviceStatusModel (isGetStatusInProgress : Bool) (s : DeviceState)
    (connect : TResult Unit) (read : TResult DPSObject) : PollResult :=
  let attempt :=
    if ¬ isGetStatusInProgress then getDeviceStatusAttempt s connect read
    else (s, false)
  { state := attempt.1,
    skipped := isGetStatusInProgress,
    isCommunicationError := attempt.2,
    nextGetStatusPeriod :=
      if attempt.2 then getDeviceStatusFastRetryPeriod else getDeviceStatusPeriod }

/-! ### Single-flight deduplication of the poller

Event-level model of the `isGetStatusInProgress` guard: an `invoke` event
is a call of `getDeviceStatus()` (periodic timer or on-demand get handler);
a `finish` event is the completion of the awaits of the one in-flight
connect/read cycle (its try/catch/finally).  `activeReadCycles` is a ghost
counter of connect/read cycles currently in flight. -/

structure PollerModel where
  isGetStatusInProgress : Bool
  activeReadCycles : Nat
  cacheValid : Bool
deriving DecidableEq

inductive PollerEvent where
  | invoke
  | finish (success : Bool)
deriving DecidableEq

def pollerInit : PollerModel :=
  { isGetStatusInProgress := false, activeReadCycles := 0, cacheValid := false }

def pollerStep (s : PollerModel) : PollerEvent → PollerModel
  | .invoke =>
    if s.isGetStatusInProgress then s
    else { s with
      isGetStatusInProgress := true,
      activeReadCycles := s.activeReadCycles + 1 }
  | .finish success =>
    { isGetStatusInProgress := false,
      activeReadCycles := s.activeReadCycles - 1,
      cacheValid := success }

def pollerRun (s : PollerModel) (events : List PollerEvent) : PollerModel :=
  events.foldl pollerStep s

/-- Well-formed poller traces: a `finish` event is the completion of a
cycle that was actually started (the flag is set while it runs). -/
def wfPollerEvents : PollerModel → List PollerEvent → Bool
  | _, [] => true
  | s, .invoke :: es => wfPollerEvents (pollerStep s .invoke) es
  | s, .finish success :: es =>
    s.isGetStatusInProgress && wfPollerEvents (pollerStep s (.finish success)) es

/-! ### The command dispatcher (`setDeviceValue`, lines 467-487) -/

/-- The value domain of `setDeviceValue`: `string | number | boolean`. -/
inductive TuyaValue where
  | str (s : String)
  | num (n : Nat)
  | bool (b : Bool)
deriving DecidableEq

/-- Observable effects of one `setDeviceValue` dispatch. -/
structure DispatchEffects where
  /-- When the dispatch's own promise resolves (it never rejects: every
  failure is caught inside). -/
  settledAt : Nat
  /-- When the `finally` block invokes the release capability
  (`none` would mean the mutex is left held forever). -/
  mutexReleasedAt : Option Nat
  /-- The device state cache after the dispatch ran to completion. -/
  stateAfter : DeviceState
  /-- Whether the catch block tore the connection down. -/
  disconnectCalled : Bool
deriving DecidableEq

/-- Embedding of `setDeviceValue`: wait `mutexDelay` for the mutex, then
connect and issue the single-attribute write.  The catch block logs and
disconnects; the finally block always releases the mutex; `this.state` is
never written on any path. -/
def setDeviceValue (s : DeviceState) (dps : Nat) (value : TuyaValue)
    (mutexDelay : Nat) (connect : TResult Unit) (setOp : TResult DPSObject) :
    DispatchEffects :=
  match connect with
  | .rejected tc =>
    { settledAt := mutexDelay + tc,
      mutexReleasedAt := some (mutexDelay + tc),
      stateAfter := s,
      disconnectCalled := true }
  | .resolved _ tc =>
    match setOp with
    | .rejected ts =>
      { settledAt := mutexDelay + tc + ts,
        mutexReleasedAt := some (mutexDelay + tc + ts),
        stateAfter := s,
        disconnectCalled := true }
    | .resolved _ ts =>
      { settledAt := mutexDelay + tc + ts,
        mutexReleasedAt := some (mutexDelay + tc + ts),
        stateAfter := s,
        disconnectCalled := false }

/-- Embedding of `setDeviceValueWithTimeout` (lines 500-510): race the
whole dispatch against `setDeviceStatusTimeout`; if the race rejects, throw
`SERVICE_COMMUNICATION_FAILURE`, else return normally. -/
def setDeviceValueWithTimeout (s : DeviceState) (dps : Nat) (value : TuyaValue)
    (mutexDelay : Nat) (connect : TResult Unit) (setOp : TResult DPSObject) :
    Except HapStatus Unit :=
  let effects := setDeviceValue s dps value mutexDelay connect setOp
  match waitForPromiseWithTimeout (TResult.resolved () effects.settledAt)
      setDeviceStatusTimeout with
  | .resolved _ _ => .ok ()
  | .rejected _ => .error .SERVICE_COMMUNICATION_FAILURE

/-! ### Connection-object rebuild after consecutive failures -/

/-- Modelled from the spec: the escalation of §4.4 / §7 — "after a
configurable run of consecutive failures, discard and rebuild the
underlying connection object itself (not just disconnect/reconnect)".  The
implementation of this policy (shipped in release 1.3.1 per the changelog,
"re-creating communicator object after failed tries") is not among the
available source files; only the per-attempt `disconnect()` of
`getDeviceStatus` is.  `connGeneration` counts distinct communicator
objects (the constructor builds generation 0). -/
structure CommunicatorState where
  connGeneration : Nat
  consecutiveFailures : Nat
deriving DecidableEq

/-- Modelled from the spec: after each completed poll attempt, a failure
bumps the consecutive-failure counter and, once the configured threshold is
reached, the communicator object is discarded and a fresh one is built; a
success resets the counter. -/
def recreateCommunicatorStep (threshold : Nat) (s : CommunicatorState)
    (pollFailed : Bool) : CommunicatorState :=
  if pollFailed then
    if threshold ≤ s.consecutiveFailures + 1 then
      { connGeneration := s.connGeneration + 1, consecutiveFailures := 0 }
    else
      { s with consecutiveFailures := s.consecutiveFailures + 1 }
  else
    { s with consecutiveFailures := 0 }

/-- A run of `n` consecutive failed poll attempts. -/
def runFailedPolls (threshold : Nat) (s : CommunicatorState) : Nat → CommunicatorState
  | 0 => s
  | n + 1 => runFailedPolls threshold (recreateCommunicatorStep threshold s true) n

end CreateCeilingFan

namespace CreateCeilingFan

/-! ### Theorems about quantization and debouncing -/

/-- `adjustInputRotationSpeed` written out with the table values inlined
(helper for case analysis). -/
theorem adjustInputRotationSpeed_eq_cases (v : Nat) :
    adjustInputRotationSpeed v =
      if v = 0 then 0
      else if v < 20 then 10
      else if v < 40 then 30
      else if v < 60 then 50
      else if v < 80 then 70
      else if v < 95 then 90
      else 100 := by
  simp [adjustInputRotationSpeed, fanRotationSpeedNormalized]

/-- C5: the slider quantization boundary table: 19 → 10 (device speed 1),
20 → 30 (speed 2), 94 → 90 (speed 5), 95 → 100 (speed 6); input 0 yields
level 0 and a gesture consisting of the input 0 dispatches no speed
command at all. -/
theorem quantization_boundaries :
    adjustInputRotationSpeed 19 = 10 ∧ dpsRotationSpeedFor 10 = 1 ∧
    (debounceRun [(0, 19)]).dispatched = [(62, 1)] ∧
    adjustInputRotationSpeed 20 = 30 ∧ dpsRotationSpeedFor 30 = 2 ∧
    (debounceRun [(0, 20)]).dispatched = [(62, 2)] ∧
    adjustInputRotationSpeed 94 = 90 ∧ dpsRotationSpeedFor 90 = 5 ∧
    (debounceRun [(0, 94)]).dispatched = [(62, 5)] ∧
    adjustInputRotationSpeed 95 = 100 ∧ dpsRotationSpeedFor 100 = 6 ∧
    (debounceRun [(0, 95)]).dispatched = [(62, 6)] ∧
    adjustInputRotationSpeed 0 = 0 ∧
    (debounceRun [(0, 0)]).dispatched = [] := by
  decide

/-- C10: quantization is idempotent, every nonzero output is a table value,
every table value is a fixed point, and re-feeding the snapped value yields
the same device speed. -/
theorem adjustInputRotationSpeed_idempotent (v : Nat) :
    adjustInputRotationSpeed (adjustInputRotationSpeed v) = adjustInputRotationSpeed v ∧
    (adjustInputRotationSpeed v ≠ 0 →
      adjustInputRotationSpeed v ∈ fanRotationSpeedNormalized) ∧
    (∀ q ∈ fanRotationSpeedNormalized, adjustInputRotationSpeed q = q) ∧
    (adjustInputRotationSpeed v ≠ 0 →
      dpsRotationSpeedFor (adjustInputRotationSpeed (adjustInputRotationSpeed v)) =
        dpsRotationSpeedFor (adjustInputRotationSpeed v)) := by
  rw [adjustInputRotationSpeed_eq_cases v]
  split_ifs <;> refine ⟨by decide, by decide, by decide, ?_⟩ <;> intro h <;> rfl

/-- C10 witness at the concrete input 42 (adjusted to 50). -/
theorem adjustInputRotationSpeed_idempotent_witness :
    adjustInputRotationSpeed (adjustInputRotationSpeed 42) = adjustInputRotationSpeed 42 ∧
    adjustInputRotationSpeed 42 ∈ fanRotationSpeedNormalized := by
  refine ⟨(adjustInputRotationSpeed_idempotent 42).1,
    (adjustInputRotationSpeed_idempotent 42).2.1 (by decide)⟩

theorem getLastD_cons_eq {α : Type} (a b : α) (l : List α) :
    (b :: l).getLastD a = l.getLastD b := by
  cases l <;> rfl

/-- A timer whose deadline lies strictly in the future does not fire. -/
theorem fireDueTimer_not_due (s : DebounceState) (t : Nat)
    (hs : ∀ d a, s.pendingTimer = some (d, a) → t < d) :
    fireDueTimer s t = s := by
  unfold fireDueTimer
  cases hpt : s.pendingTimer with
  | none => rfl
  | some p =>
    obtain ⟨d, a⟩ := p
    have hd := hs d a hpt
    simp only [Nat.not_le.mpr hd, if_false]

/-- One slider input that arrives before the pending deadline: nothing is
dispatched, the timer is replaced (nonzero input) or cleared (zero input). -/
theorem handleFanRotationSpeedSet_no_fire (s : DebounceState) (t v : Nat)
    (hs : ∀ d a, s.pendingTimer = some (d, a) → t < d) :
    (handleFanRotationSpeedSet s t v).dispatched = s.dispatched ∧
    (handleFanRotationSpeedSet s t v).pendingTimer =
      (if adjustInputRotationSpeed v ≠ 0 then
         some (t + fanSetSpeedDebouncePeriod, adjustInputRotationSpeed v)
       else none) := by
  unfold handleFanRotationSpeedSet
  rw [fireDueTimer_not_due s t hs]
  by_cases hz : adjustInputRotationSpeed v ≠ 0 <;> simp [hz]

/-- Folding a burst of inputs over the debounce controller: no command is
dispatched during the burst, and the surviving timer (if any) carries the
last input's adjusted value. -/
theorem debounce_foldl_burst :
    ∀ (rest : List (Nat × Nat)) (t v : Nat) (s : DebounceState),
      isBurst ((t, v) :: rest) = true →
      (∀ d a, s.pendingTimer = some (d, a) → t < d) →
      (((t, v) :: rest).foldl (fun s p => handleFanRotationSpeedSet s p.1 p.2) s).dispatched
          = s.dispatched ∧
      (((t, v) :: rest).foldl (fun s p => handleFanRotationSpeedSet s p.1 p.2) s).pendingTimer
          = (if adjustInputRotationSpeed (rest.getLastD (t, v)).2 ≠ 0 then
               some ((rest.getLastD (t, v)).1 + fanSetSpeedDebouncePeriod,
                     adjustInputRotationSpeed (rest.getLastD (t, v)).2)
             else none)
  | [], t, v, s, _, hs => by
    simpa [List.getLastD] using handleFanRotationSpeedSet_no_fire s t v hs
  | (t2, v2) :: rest2, t, v, s, hb, hs => by
    have hb12 : (t < t2 ∧ t2 < t + fanSetSpeedDebouncePeriod) ∧
        isBurst ((t2, v2) :: rest2) = true := by
      simpa [isBurst, Bool.and_eq_true] using hb
    have hstep := handleFanRotationSpeedSet_no_fire s t v hs
    have hs2 : ∀ d a, (handleFanRotationSpeedSet s t v).pendingTimer = some (d, a) → t2 < d := by
      intro d a hpt
      rw [hstep.2] at hpt
      by_cases hz : adjustInputRotationSpeed v ≠ 0
      · rw [if_pos hz] at hpt
        cases hpt
        exact hb12.1.2
      · rw [if_neg hz] at hpt
        cases hpt
    have ih := debounce_foldl_burst rest2 t2 v2 (handleFanRotationSpeedSet s t v)
      hb12.2 hs2
    rw [getLastD_cons_eq]
    exact ⟨by rw [List.foldl_cons]; exact ih.1.trans hstep.1,
           by rw [List.foldl_cons]; exact ih.2⟩

/-- C6: a burst of slider inputs with gaps shorter than the debounce period
(last input not the off position) dispatches exactly one speed command: the
one for the last input's quantized value; no command for an intermediate
input is ever sent. -/
theorem debounce_burst_single_dispatch (t v : Nat) (inputs : List (Nat × Nat))
    (hburst : isBurst ((t, v) :: inputs) = true)
    (hlast : adjustInputRotationSpeed (inputs.getLastD (t, v)).2 ≠ 0) :
    (debounceRun ((t, v) :: inputs)).dispatched =
      [(62, dpsRotationSpeedFor (adjustInputRotationSpeed (inputs.getLastD (t, v)).2))] := by
  have hinit : ∀ d a, debounceInit.pendingTimer = some (d, a) → t < d := by
    intro d a h
    simp [debounceInit] at h
  have hfold := debounce_foldl_burst inputs t v debounceInit hburst hinit
  unfold debounceRun flushDebounce
  rw [hfold.2, if_pos hlast, hfold.1]
  rfl

/-- C6 witness: the inputs 42, 45, 58 arriving 100 ms apart dispatch exactly
the single command for quantized level 50, device speed 3. -/
theorem debounce_burst_single_dispatch_witness :
    isBurst [(0, 42), (100, 45), (200, 58)] = true ∧
    (debounceRun [(0, 42), (100, 45), (200, 58)]).dispatched = [(62, 3)] := by
  refine ⟨by decide, ?_⟩
  exact (debounce_burst_single_dispatch 0 42 [(100, 45), (200, 58)]
    (by decide) (by decide)).trans (by decide)

/-! ### Theorems about the mutex -/

theorem mutexRun_cons (s : MutexModel) (e : MutexEvent) (es : List MutexEvent) :
    mutexRun s (e :: es) = mutexRun (mutexStep s e) es := rfl

theorem issuedLocks_cons (e : MutexEvent) (es : List MutexEvent) :
    issuedLocks (e :: es) = issuedLocks [e] ++ issuedLocks es := by
  cases e <;> simp [issuedLocks]

/-- One step of the mutex preserves the holder invariant (a locked mutex
has exactly one holder, a free mutex has no holder and an empty queue) and
extends the grant order by exactly the issued lock calls. -/
theorem mutexStep_preserves (s : MutexModel) (e : MutexEvent)
    (hinv1 : s.isLocked = true → s.holders.length = 1)
    (hinv2 : s.isLocked = false → s.holders = [] ∧ s.waitingQueue = [])
    (hwf : ∀ caller, e = .unlock caller → caller ∈ s.holders) :
    ((mutexStep s e).isLocked = true → (mutexStep s e).holders.length = 1) ∧
    ((mutexStep s e).isLocked = false →
      (mutexStep s e).holders = [] ∧ (mutexStep s e).waitingQueue = []) ∧
    (mutexStep s e).grantedLog ++ (mutexStep s e).waitingQueue
      = s.grantedLog ++ s.waitingQueue ++ issuedLocks [e] := by
  cases e with
  | lock caller =>
    by_cases hl : s.isLocked
    · have hstep : mutexStep s (.lock caller)
          = { s with waitingQueue := s.waitingQueue ++ [caller] } := by
        simp [mutexStep, hl]
      rw [hstep]
      refine ⟨fun _ => hinv1 hl, fun h => ?_, by simp [issuedLocks]⟩
      exact absurd (show s.isLocked = false from h) (by simp [hl])
    · have hfree := hinv2 (by simpa using hl)
      have hstep : mutexStep s (.lock caller) = acquireLock s caller := by
        simp [mutexStep, hl]
      rw [hstep]
      refine ⟨fun _ => ?_, fun h => ?_, ?_⟩
      · simp [acquireLock, hfree.1]
      · exact absurd (show True from trivial) (by simp [acquireLock] at h)
      · simp [acquireLock, hfree.2, issuedLocks]
  | unlock caller =>
    have hmem : caller ∈ s.holders := hwf caller rfl
    have hl : s.isLocked = true := by
      cases hval : s.isLocked with
      | true => rfl
      | false =>
        rw [(hinv2 hval).1] at hmem
        cases hmem
    have hsingle : s.holders = [caller] := by
      obtain ⟨b, hb⟩ := List.length_eq_one.mp (hinv1 hl)
      rw [hb] at hmem
      have : caller = b := by simpa using hmem
      rw [hb, this]
    have herase : s.holders.erase caller = [] := by
      rw [hsingle]
      simp
    cases hq : s.waitingQueue with
    | nil =>
      have hstep : mutexStep s (.unlock caller)
          = { s with holders := [], isLocked := false } := by
        simp [mutexStep, hq, herase]
      rw [hstep]
      refine ⟨fun h => ?_, fun _ => ⟨rfl, hq⟩, by simp [hq, issuedLocks]⟩
      exact absurd (show True from trivial) (by simp at h)
    | cons nextPending remaining =>
      have hstep : mutexStep s (.unlock caller)
          = { s with
              isLocked := true,
              holders := [nextPending],
              waitingQueue := remaining,
              grantedLog := s.grantedLog ++ [nextPending] } := by
        simp [mutexStep, hq, herase, acquireLock]
      rw [hstep]
      refine ⟨fun _ => rfl, fun h => ?_, by simp [hq, issuedLocks]⟩
      exact absurd (show True from trivial) (by simp at h)

/-- Invariant and grant-order bookkeeping along any well-formed trace. -/
theorem mutexRun_fifo_inv (events : List MutexEvent) :
    ∀ s : MutexModel,
      wfMutexEvents s events = true →
      (s.isLocked = true → s.holders.length = 1) →
      (s.isLocked = false → s.holders = [] ∧ s.waitingQueue = []) →
      ((mutexRun s events).isLocked = true → (mutexRun s events).holders.length = 1) ∧
      ((mutexRun s events).isLocked = false →
        (mutexRun s events).holders = [] ∧ (mutexRun s events).waitingQueue = []) ∧
      (mutexRun s events).grantedLog ++ (mutexRun s events).waitingQueue
        = s.grantedLog ++ s.waitingQueue ++ issuedLocks events := by
  induction events with
  | nil =>
    intro s _ h1 h2
    exact ⟨h1, h2, by simp [mutexRun, issuedLocks]⟩
  | cons e es ih =>
    intro s hwf h1 h2
    have hunpack : wfMutexEvents (mutexStep s e) es = true ∧
        (∀ caller, e = .unlock caller → caller ∈ s.holders) := by
      cases e with
      | lock caller =>
        exact ⟨by simpa [wfMutexEvents] using hwf, by intro c h; cases h⟩
      | unlock caller =>
        have hsplit : decide (caller ∈ s.holders) = true ∧
            wfMutexEvents (mutexStep s (.unlock caller)) es = true := by
          simpa [wfMutexEvents, Bool.and_eq_true] using hwf
        refine ⟨hsplit.2, ?_⟩
        intro c h
        cases h
        exact of_decide_eq_true hsplit.1
    have hpres := mutexStep_preserves s e h1 h2 hunpack.2
    have hih := ih (mutexStep s e) hunpack.1 hpres.1 hpres.2.1
    refine ⟨hih.1, hih.2.1, ?_⟩
    rw [mutexRun_cons]
    calc (mutexRun (mutexStep s e) es).grantedLog ++ (mutexRun (mutexStep s e) es).waitingQueue
        = (mutexStep s e).grantedLog ++ (mutexStep s e).waitingQueue ++ issuedLocks es :=
          hih.2.2
      _ = s.grantedLog ++ s.waitingQueue ++ issuedLocks [e] ++ issuedLocks es := by
          rw [hpres.2.2]
      _ = s.grantedLog ++ s.waitingQueue ++ issuedLocks (e :: es) := by
          rw [issuedLocks_cons e es]
          simp [List.append_assoc]

/-- C1: along every well-formed trace of concurrent `lock` / `unlock`
calls, at most one caller holds the mutex at any point, and the callers
granted so far, followed by the still-waiting queue, are exactly the `lock`
callers in the order their calls were issued — holders are served in strict
FIFO issue order. -/
theorem mutex_fifo_and_mutual_exclusion (events : List MutexEvent)
    (hwf : wfMutexEvents mutexInit events = true) :
    (mutexRun mutexInit events).holders.length ≤ 1 ∧
    (mutexRun mutexInit events).grantedLog ++ (mutexRun mutexInit events).waitingQueue
      = issuedLocks events := by
  have h := mutexRun_fifo_inv events mutexInit hwf
    (by intro hcontra; cases hcontra) (fun _ => ⟨rfl, rfl⟩)
  constructor
  · cases hval : (mutexRun mutexInit events).isLocked with
    | true => exact Nat.le_of_eq (h.1 hval)
    | false => simp [(h.2.1 hval).1]
  · simpa [mutexInit] using h.2.2

/-- C1 witness: three lock calls issued while the mutex is busy, then two
releases; the grants happen in issue order and never overlap. -/
theorem mutex_fifo_and_mutual_exclusion_witness :
    (mutexRun mutexInit
        [.lock 5, .lock 7, .lock 9, .unlock 5, .unlock 7]).holders.length ≤ 1 ∧
    (mutexRun mutexInit
          [.lock 5, .lock 7, .lock 9, .unlock 5, .unlock 7]).grantedLog ++
        (mutexRun mutexInit
          [.lock 5, .lock 7, .lock 9, .unlock 5, .unlock 7]).waitingQueue
      = issuedLocks [.lock 5, .lock 7, .lock 9, .unlock 5, .unlock 7] :=
  mutex_fifo_and_mutual_exclusion
    [.lock 5, .lock 7, .lock 9, .unlock 5, .unlock 7] (by decide)

/-! ### Theorems about the poller -/

theorem pollerRun_cons (s : PollerModel) (e : PollerEvent) (es : List PollerEvent) :
    pollerRun s (e :: es) = pollerRun (pollerStep s e) es := rfl

/-- The in-flight counter tracks the `isGetStatusInProgress` flag along any
well-formed trace. -/
theorem pollerRun_cycles_inv (events : List PollerEvent) :
    ∀ s : PollerModel,
      wfPollerEvents s events = true →
      s.activeReadCycles = (if s.isGetStatusInProgress then 1 else 0) →
      (pollerRun s events).activeReadCycles
        = (if (pollerRun s events).isGetStatusInProgress then 1 else 0) := by
  induction events with
  | nil =>
    intro s _ hinv
    exact hinv
  | cons e es ih =>
    intro s hwf hinv
    rw [pollerRun_cons]
    cases e with
    | invoke =>
      refine ih (pollerStep s .invoke) (by simpa [wfPollerEvents] using hwf) ?_
      by_cases hp : s.isGetStatusInProgress
      · simp [pollerStep, hp, hinv]
      · simp [pollerStep, hp, hinv]
    | finish success =>
      have hsplit : s.isGetStatusInProgress = true ∧
          wfPollerEvents (pollerStep s (.finish success)) es = true := by
        simpa [wfPollerEvents, Bool.and_eq_true] using hwf
      refine ih (pollerStep s (.finish success)) hsplit.2 ?_
      simp [pollerStep, hinv, hsplit.1]

/-- C4: along every well-formed trace of poller triggers, at most one
connect/read cycle is ever in flight, and a `getDeviceStatus()` call
arriving while a read is in progress changes nothing — no second cycle is
started and the concurrent caller is served by the shared cache that the
already-running read will refresh. -/
theorem getDeviceStatus_single_flight (events : List PollerEvent)
    (hwf : wfPollerEvents pollerInit events = true) :
    (pollerRun pollerInit events).activeReadCycles ≤ 1 ∧
    ((pollerRun pollerInit events).isGetStatusInProgress = true →
      pollerStep (pollerRun pollerInit events) .invoke = pollerRun pollerInit events) := by
  have hinv := pollerRun_cycles_inv events pollerInit hwf rfl
  constructor
  · rw [hinv]
    by_cases hp : (pollerRun pollerInit events).isGetStatusInProgress <;> simp [hp]
  · intro hp
    simp [pollerStep, hp]

/-- C4 witness: an on-demand trigger arriving while a periodic read is in
flight. -/
theorem getDeviceStatus_single_flight_witness :
    (pollerRun pollerInit [.invoke, .invoke]).activeReadCycles ≤ 1 ∧
    ((pollerRun pollerInit [.invoke, .invoke]).isGetStatusInProgress = true →
      pollerStep (pollerRun pollerInit [.invoke, .invoke]) .invoke
        = pollerRun pollerInit [.invoke, .invoke]) :=
  getDeviceStatus_single_flight [.invoke, .invoke] (by decide)

/-! ### Theorems about the get handlers -/

/-- C7: every get handler first triggers the fire-and-forget refresh; when
the last poll failed (`isValid = false`) it throws
`SERVICE_COMMUNICATION_FAILURE` instead of returning the stale cache; when
the cache is valid it returns the current projection. -/
theorem get_handlers_stale_cache (s : DeviceState) :
    ((handleFanActiveStateGet s).refreshRequested = true ∧
     (handleFanRotationSpeedGet s).refreshRequested = true ∧
     (handleFanRotationDirectionGet s).refreshRequested = true ∧
     (handleLightOnGet s).refreshRequested = true) ∧
    (s.isValid = false →
      (handleFanActiveStateGet s).result = .error .SERVICE_COMMUNICATION_FAILURE ∧
      (handleFanRotationSpeedGet s).result = .error .SERVICE_COMMUNICATION_FAILURE ∧
      (handleFanRotationDirectionGet s).result = .error .SERVICE_COMMUNICATION_FAILURE ∧
      (handleLightOnGet s).result = .error .SERVICE_COMMUNICATION_FAILURE) ∧
    (s.isValid = true →
      (handleFanActiveStateGet s).result = .ok (fanActiveValueToCharacteristicValue s) ∧
      (handleFanRotationSpeedGet s).result
        = .ok (fanRotationSpeedValueToCharacteristicValue s) ∧
      (handleFanRotationDirectionGet s).result
        = .ok (fanRotationDirectionValueToCharacteristicValue s) ∧
      (handleLightOnGet s).result = .ok (lightOnValueToCharacteristicValue s)) := by
  cases hv : s.isValid <;>
    simp [handleFanActiveStateGet, handleFanRotationSpeedGet,
      handleFanRotationDirectionGet, handleLightOnGet, handleGet,
      throwErrorIfDeviceUnresponsive, hv]

/-- C7 witness: the initial cache is invalid, so a get fails with the
communication-failure status. -/
theorem get_handlers_stale_cache_witness :
    deviceStateInit.isValid = false ∧
    (handleFanActiveStateGet deviceStateInit).result
      = .error .SERVICE_COMMUNICATION_FAILURE :=
  ⟨rfl, ((get_handlers_stale_cache deviceStateInit).2.1 rfl).1⟩

/-- C8: a completed (non-skipped) poll attempt always arms the next timer:
with the fast-retry period exactly when the attempt failed with a
communication error (and the cache was invalidated), with the normal period
exactly when it succeeded (and the cache was marked valid). -/
theorem getDeviceStatus_adaptive_cadence (s : DeviceState)
    (connect : TResult Unit) (read : TResult DPSObject) :
    ((getDeviceStatusModel false s connect read).isCommunicationError = true →
      (getDeviceStatusModel false s connect read).nextGetStatusPeriod
          = getDeviceStatusFastRetryPeriod ∧
      (getDeviceStatusModel false s connect read).state.isValid = false) ∧
    ((getDeviceStatusModel false s connect read).isCommunicationError = false →
      (getDeviceStatusModel false s connect read).nextGetStatusPeriod
          = getDeviceStatusPeriod ∧
      (getDeviceStatusModel false s connect read).state.isValid = true) ∧
    ((getDeviceStatusModel false s connect read).nextGetStatusPeriod
        = getDeviceStatusFastRetryPeriod ∨
     (getDeviceStatusModel false s connect read).nextGetStatusPeriod
        = getDeviceStatusPeriod) := by
  cases hc : waitForPromiseWithTimeout connect getDeviceStatusConnectTimeout with
  | rejected t =>
    simp [getDeviceStatusModel, getDeviceStatusAttempt, hc]
  | resolved u t =>
    cases hr : waitForPromiseWithTimeout read getDeviceStatusReadTimeout with
    | rejected t2 =>
      simp [getDeviceStatusModel, getDeviceStatusAttempt, hc, hr]
    | resolved status t2 =>
      simp [getDeviceStatusModel, getDeviceStatusAttempt, hc, hr, updateDeviceState]

/-- C8 witness: a connect that is rejected after 100 ms yields the 1000 ms
fast-retry period; a clean connect and read yield the normal 10000 ms
period. -/
theorem getDeviceStatus_adaptive_cadence_witness :
    (getDeviceStatusModel false deviceStateInit (TResult.rejected 100)
        (TResult.resolved ⟨true, 3, "forward", false⟩ 50)).nextGetStatusPeriod
      = getDeviceStatusFastRetryPeriod ∧
    (getDeviceStatusModel false deviceStateInit (TResult.resolved () 100)
        (TResult.resolved ⟨true, 3, "forward", false⟩ 50)).nextGetStatusPeriod
      = getDeviceStatusPeriod :=
  ⟨((getDeviceStatus_adaptive_cadence deviceStateInit (TResult.rejected 100)
      (TResult.resolved ⟨true, 3, "forward", false⟩ 50)).1 (by rfl)).1,
   ((getDeviceStatus_adaptive_cadence deviceStateInit (TResult.resolved () 100)
      (TResult.resolved ⟨true, 3, "forward", false⟩ 50)).2.1 (by rfl)).1⟩

/-! ### Theorems about the command dispatcher -/

/-- C2 counterexample: a connect that is rejected 10 ms in is caught inside
`setDeviceValue`, whose own promise then resolves well before the 2500 ms
deadline — so `setDeviceValueWithTimeout` returns normally and does not
throw `SERVICE_COMMUNICATION_FAILURE`, although an underlying operation
failed. -/
theorem setDeviceValueWithTimeout_fast_failure_cex :
    setDeviceValueWithTimeout deviceStateInit 60 (.bool true) 0 (.rejected 10)
        (.resolved ⟨true, 3, "forward", false⟩ 0) = .ok () ∧
    ¬ (setDeviceValueWithTimeout deviceStateInit 60 (.bool true) 0 (.rejected 10)
        (.resolved ⟨true, 3, "forward", false⟩ 0)
      = .error .SERVICE_COMMUNICATION_FAILURE) := by
  exact ⟨rfl, fun h => Except.noConfusion h⟩

/-- C2 amended: `setDeviceValueWithTimeout` throws
`SERVICE_COMMUNICATION_FAILURE` exactly when the whole dispatch misses the
`setDeviceStatusTimeout` deadline; an underlying connect or write failure
that settles within the deadline is absorbed inside `setDeviceValue`
(logged, connection torn down) and the call returns normally — the next
poll reconciles the cache. -/
theorem setDeviceValueWithTimeout_comm_failure_iff (s : DeviceState) (dps : Nat)
    (value : TuyaValue) (mutexDelay : Nat)
    (connect : TResult Unit) (setOp : TResult DPSObject) :
    (setDeviceValueWithTimeout s dps value mutexDelay connect setOp
        = .error .SERVICE_COMMUNICATION_FAILURE ↔
      setDeviceStatusTimeout
        ≤ (setDeviceValue s dps value mutexDelay connect setOp).settledAt) ∧
    (setDeviceValueWithTimeout s dps value mutexDelay connect setOp = .ok () ↔
      (setDeviceValue s dps value mutexDelay connect setOp).settledAt
        < setDeviceStatusTimeout) := by
  by_cases ht :
      (setDeviceValue s dps value mutexDelay connect setOp).settledAt
        < setDeviceStatusTimeout
  · constructor
    · simp [setDeviceValueWithTimeout, waitForPromiseWithTimeout, ht, Nat.not_le.mpr ht]
    · simp [setDeviceValueWithTimeout, waitForPromiseWithTimeout, ht]
  · constructor
    · simp [setDeviceValueWithTimeout, waitForPromiseWithTimeout, ht, Nat.le_of_not_lt ht]
    · simp [setDeviceValueWithTimeout, waitForPromiseWithTimeout, ht]

/-- C9: whenever the wrapped dispatch misses the deadline (the race rejects
at `setDeviceStatusTimeout`), the underlying `setDeviceValue` promise still
settles out-of-band at its own `settledAt`, leaves every `DeviceState`
field untouched, and releases the mutex on its own exit path — the mutex is
never left permanently held. -/
theorem setDeviceValue_timeout_non_corruption (s : DeviceState) (dps : Nat)
    (value : TuyaValue) (mutexDelay : Nat)
    (connect : TResult Unit) (setOp : TResult DPSObject)
    (htimeout : waitForPromiseWithTimeout
        (TResult.resolved ()
          (setDeviceValue s dps value mutexDelay connect setOp).settledAt)
        setDeviceStatusTimeout = .rejected setDeviceStatusTimeout) :
    (setDeviceValue s dps value mutexDelay connect setOp).stateAfter = s ∧
    (setDeviceValue s dps value mutexDelay connect setOp).mutexReleasedAt
      = some (setDeviceValue s dps value mutexDelay connect setOp).settledAt := by
  cases connect with
  | rejected tc => exact ⟨rfl, rfl⟩
  | resolved u tc =>
    cases setOp with
    | rejected ts => exact ⟨rfl, rfl⟩
    | resolved status ts => exact ⟨rfl, rfl⟩

/-- C9 witness: a connect that only completes after 3000 ms makes the
2500 ms race reject; the dispatch still settles on its own, state intact
and mutex released. -/
theorem setDeviceValue_timeout_non_corruption_witness :
    (setDeviceValue deviceStateInit 60 (.bool true) 0 (.resolved () 3000)
        (.resolved ⟨true, 3, "forward", false⟩ 0)).stateAfter = deviceStateInit ∧
    (setDeviceValue deviceStateInit 60 (.bool true) 0 (.resolved () 3000)
        (.resolved ⟨true, 3, "forward", false⟩ 0)).mutexReleasedAt
      = some (setDeviceValue deviceStateInit 60 (.bool true) 0 (.resolved () 3000)
          (.resolved ⟨true, 3, "forward", false⟩ 0)).settledAt :=
  setDeviceValue_timeout_non_corruption deviceStateInit 60 (.bool true) 0
    (.resolved () 3000) (.resolved ⟨true, 3, "forward", false⟩ 0) (by rfl)

/-! ### Theorems about the connection-object rebuild escalation -/

theorem runFailedPolls_succ (threshold : Nat) :
    ∀ (n : Nat) (s : CommunicatorState),
      runFailedPolls threshold s (n + 1)
        = recreateCommunicatorStep threshold (runFailedPolls threshold s n) true
  | 0, s => rfl
  | n + 1, s =>
    runFailedPolls_succ threshold n (recreateCommunicatorStep threshold s true)

/-- Below the threshold, failed polls only count up: the communicator
object is kept (per-attempt disconnect only). -/
theorem runFailedPolls_below (threshold : Nat) :
    ∀ (n : Nat) (s : CommunicatorState),
      s.consecutiveFailures + n < threshold →
      runFailedPolls threshold s n
        = ⟨s.connGeneration, s.consecutiveFailures + n⟩ := by
  intro n
  induction n with
  | zero => intro s _; rfl
  | succ k ih =>
    intro s hlt
    have hstep : recreateCommunicatorStep threshold s true
        = ⟨s.connGeneration, s.consecutiveFailures + 1⟩ := by
      have hnot : ¬ threshold ≤ s.consecutiveFailures + 1 :=
        Nat.not_le.mpr (Nat.lt_of_le_of_lt (by omega) hlt)
      simp [recreateCommunicatorStep, hnot]
    show runFailedPolls threshold (recreateCommunicatorStep threshold s true) k = _
    rw [hstep, ih ⟨s.connGeneration, s.consecutiveFailures + 1⟩ (by simpa using by omega)]
    simp [Nat.add_assoc, Nat.add_comm 1 k]

/-- C3 (modelled from the spec, see `recreateCommunicatorStep`): starting
from a healthy communicator, a run of consecutive failed polls of the
configured threshold length discards the communicator object and builds a
fresh one; shorter runs keep the object (only the per-attempt disconnect
happens), and a successful poll never rebuilds it. -/
theorem communicator_rebuilt_at_threshold (threshold : Nat) (s : CommunicatorState)
    (hpos : 1 ≤ threshold) (hzero : s.consecutiveFailures = 0) :
    (runFailedPolls threshold s threshold).connGeneration = s.connGeneration + 1 ∧
    (∀ n, n < threshold →
      (runFailedPolls threshold s n).connGeneration = s.connGeneration) ∧
    (recreateCommunicatorStep threshold s false).connGeneration = s.connGeneration := by
  obtain ⟨k, hk⟩ : ∃ k, threshold = k + 1 := ⟨threshold - 1, by omega⟩
  refine ⟨?_, ?_, rfl⟩
  · rw [hk, runFailedPolls_succ (k + 1) k s,
      runFailedPolls_below (k + 1) k s (by omega)]
    simp [recreateCommunicatorStep, hzero]
  · intro n hn
    rw [runFailedPolls_below threshold n s (by omega)]

/-- C3 witness at threshold 3: two failures keep the communicator, the
third rebuilds it. -/
theorem communicator_rebuilt_at_threshold_witness :
    (runFailedPolls 3 ⟨0, 0⟩ 3).connGeneration
        = (⟨0, 0⟩ : CommunicatorState).connGeneration + 1 ∧
    (runFailedPolls 3 ⟨0, 0⟩ 2).connGeneration
        = (⟨0, 0⟩ : CommunicatorState).connGeneration :=
  ⟨(communicator_rebuilt_at_threshold 3 ⟨0, 0⟩ (by decide) rfl).1,
   (communicator_rebuilt_at_threshold 3 ⟨0, 0⟩ (by decide) rfl).2.1 2 (by decide)⟩

end CreateCeilingFan
